import Mathlib

/-!
Verification of the DuckStation bus and timer slice (`src/core/bus.cpp`,
`src/core/timers.cpp`) against its natural-language specification.

Machine integers are embedded as `Nat` with explicit `% 2^32` where u32
overflow matters; `&&&`, `|||`, `^^^` are the C bitwise operators; signed
32-bit arithmetic in `CalculateMemoryTiming` (which can go negative via
`com0 - 1`) is embedded over `Int`.
-/

/-- Set (`v = true`) or clear (`v = false`) bit `k` of `b`. Embeds the C++
bitfield member assignments on `TimerMode` / register words. -/
def set_bit (k : Nat) (v : Bool) (b : Nat) : Nat :=
  if v then b ||| 2 ^ k else ((b >>> (k + 1)) <<< (k + 1)) ||| b % 2 ^ k

theorem testBit_set_bit (k j : Nat) (v : Bool) (b : Nat) :
    (set_bit k v b).testBit j = if j = k then v else b.testBit j := by
  rcases v with _ | _
  · simp only [set_bit, Bool.false_eq_true, if_false, Nat.testBit_lor,
      Nat.testBit_shiftLeft, Nat.testBit_shiftRight, Nat.testBit_mod_two_pow]
    rcases lt_trichotomy j k with h | h | h
    · have h1 : ¬ (k + 1 ≤ j) := by omega
      have h3 : j ≠ k := by omega
      simp [h1, h, h3]
    · subst h
      have h1 : ¬ (j + 1 ≤ j) := by omega
      have h2 : ¬ (j < j) := by omega
      simp [h1, h2]
    · have h1 : k + 1 ≤ j := by omega
      have h2 : ¬ (j < k) := by omega
      have h3 : j ≠ k := by omega
      have h4 : k + 1 + (j - (k + 1)) = j := by omega
      simp [h1, h2, h3, h4]
  · simp only [set_bit, if_true, Nat.testBit_lor, Nat.testBit_two_pow]
    rcases eq_or_ne j k with h | h
    · simp [h]
    · have h2 : k ≠ j := Ne.symm h
      simp [h, h2]

/-- The access-type template parameter of `Bus::DispatchAccess`. -/
inductive MemoryAccessType where
  | Read
  | Write
deriving DecidableEq

/-- The access-size template parameter of `Bus::DispatchAccess`. -/
inductive MemoryAccessSize where
  | Byte
  | HalfWord
  | Word
deriving DecidableEq

/-- Bus-owned mutable state that the modelled dispatch path can touch:
the 2 MiB RAM, byte-addressed. -/
structure BusState where
  ram : Nat → Nat

/-- `Bus::DoInvalidAccess` (bus.cpp:234): logs, forces the read value to
all-ones for reads, leaves the value alone for writes, touches no other
state, and returns a tick count of 1. Result: (state, value, ticks). -/
def DoInvalidAccess (st : BusState) (ty : MemoryAccessType)
    (sz : MemoryAccessSize) (address value : Nat) : BusState × Nat × Nat :=
  match ty with
  | .Read => (st, 4294967295, 1)
  | .Write => (st, value, 1)

/-- Modelled from the spec: `Bus::DispatchAccess` is declared in `bus.h`,
which is not part of this slice; only its callers are.  Per spec sections
4.1 and 4.2, it masks the address to 29 bits, classifies the region, and
for the RAM region (`pa < 0x800000`, offset mirrored into 2 MiB) performs
a little-endian load (type `Read`, result placed in the value slot) or
store (type `Write`) of the requested width; other regions are treated as
invalid accesses here.  Result: (state, value, success). -/
def DispatchAccess (ty : MemoryAccessType) (sz : MemoryAccessSize)
    (st : BusState) (address value : Nat) : BusState × Nat × Bool :=
  let pa := address % 536870912
  if pa < 8388608 then
    let off := pa % 2097152
    match ty, sz with
    | .Read, .Byte => (st, st.ram off, true)
    | .Read, .HalfWord => (st, st.ram off + 256 * st.ram (off + 1), true)
    | .Read, .Word =>
        (st, st.ram off + 256 * st.ram (off + 1) + 65536 * st.ram (off + 2) +
          16777216 * st.ram (off + 3), true)
    | .Write, .Byte =>
        ({ st with ram := fun a => if a = off then value &&& 255 else st.ram a },
          value, true)
    | .Write, .HalfWord =>
        ({ st with ram := fun a =>
            if a = off then value &&& 255
            else if a = off + 1 then (value >>> 8) &&& 255
            else st.ram a }, value, true)
    | .Write, .Word =>
        ({ st with ram := fun a =>
            if a = off then value &&& 255
            else if a = off + 1 then (value >>> 8) &&& 255
            else if a = off + 2 then (value >>> 16) &&& 255
            else if a = off + 3 then (value >>> 24) &&& 255
            else st.ram a }, value, true)
  else
    match ty with
    | .Read => (st, 4294967295, false)
    | .Write => (st, value, false)

/-- `Bus::ReadByte` (bus.cpp:83): dispatches a byte access of type `Read`. -/
def ReadByte (st : BusState) (address : Nat) : BusState × Nat × Bool :=
  let r := DispatchAccess .Read .Byte st address 0
  (r.1, r.2.1 &&& 255, r.2.2)

/-- `Bus::ReadHalfWord` (bus.cpp:91): dispatches a halfword access of type
`Read`. -/
def ReadHalfWord (st : BusState) (address : Nat) : BusState × Nat × Bool :=
  let r := DispatchAccess .Read .HalfWord st address 0
  (r.1, r.2.1 &&& 65535, r.2.2)

/-- `Bus::WriteByte` (bus.cpp:104), embedded faithfully to the source: it
zero-extends the byte and dispatches with access type `Read` (not `Write`),
so the dispatched access loads into the discarded temporary. -/
def WriteByte (st : BusState) (address value : Nat) : BusState × Bool :=
  let temp := value &&& 255
  let r := DispatchAccess .Read .Byte st address temp
  (r.1, r.2.2)

/-- `Bus::WriteHalfWord` (bus.cpp:110), embedded faithfully to the source:
it zero-extends the halfword and dispatches with access type `Read`. -/
def WriteHalfWord (st : BusState) (address value : Nat) : BusState × Bool :=
  let temp := value &&& 65535
  let r := DispatchAccess .Read .HalfWord st address temp
  (r.1, r.2.2)

/-- `Bus::WriteWord` (bus.cpp:116): dispatches a word access of type
`Write`. -/
def WriteWord (st : BusState) (address value : Nat) : BusState × Bool :=
  let r := DispatchAccess .Write .Word st address value
  (r.1, r.2.2)

/-- The fields of a `MEMDELAY` register that `CalculateMemoryTiming`
reads (bus.h bitfield, values as decoded from the register word). -/
structure MEMDELAY where
  access_time : Nat
  use_com0_time : Bool
  use_com1_time : Bool
  use_com2_time : Bool
  use_com3_time : Bool
  data_bus_16bit : Bool
deriving DecidableEq

/-- The fields of the `COMDELAY` register that `CalculateMemoryTiming`
reads (each a 4-bit field of the register word). -/
structure COMDELAY where
  com0 : Nat
  com1 : Nat
  com2 : Nat
  com3 : Nat
deriving DecidableEq

/-- `Bus::CalculateMemoryTiming` (bus.cpp:179): the nocash recipe over s32
arithmetic, returning (byte, halfword, word) access tick counts. -/
def CalculateMemoryTiming (md : MEMDELAY) (cd : COMDELAY) : Int × Int × Int :=
  let f1 : Int := if md.use_com0_time then 0 + (cd.com0 : Int) - 1 else 0
  let s1 : Int := if md.use_com0_time then 0 + (cd.com0 : Int) - 1 else 0
  let f2 : Int := if md.use_com2_time then f1 + (cd.com2 : Int) else f1
  let s2 : Int := if md.use_com2_time then s1 + (cd.com2 : Int) else s1
  let mn : Int := if md.use_com3_time then (cd.com3 : Int) else 0
  let f3 : Int := if f2 < 6 then f2 + 1 else f2
  let f4 : Int := f3 + (md.access_time : Int) + 2
  let s3 : Int := s2 + (md.access_time : Int) + 2
  let f5 : Int := if f4 < mn + 6 then mn + 6 else f4
  let s4 : Int := if s3 < mn + 2 then mn + 2 else s3
  (f5, if md.data_bus_16bit then f5 else f5 + s4,
    if md.data_bus_16bit then f5 + s4 else f5 + s4 + s4 + s4)

/-- The spec's recipe for the memory-timing triple, written from the words
of the claim (start from 0, conditional additions, increment below 6, add
access_time + 2, clamp with max, then byte/halfword/word composition with
`first + 3 * seq`).  To be compared with `CalculateMemoryTiming`. -/
def CalculateMemoryTimingSpec (md : MEMDELAY) (cd : COMDELAY) :
    Int × Int × Int :=
  let f1 : Int := (if md.use_com0_time then (cd.com0 : Int) - 1 else 0) +
    (if md.use_com2_time then (cd.com2 : Int) else 0)
  let s1 : Int := (if md.use_com0_time then (cd.com0 : Int) - 1 else 0) +
    (if md.use_com2_time then (cd.com2 : Int) else 0)
  let mn : Int := if md.use_com3_time then (cd.com3 : Int) else 0
  let f2 : Int := if f1 < 6 then f1 + 1 else f1
  let f3 : Int := f2 + (md.access_time : Int) + 2
  let s2 : Int := s1 + (md.access_time : Int) + 2
  let f4 : Int := max f3 (mn + 6)
  let s3 : Int := max s2 (mn + 2)
  (f4, if md.data_bus_16bit then f4 else f4 + s3,
    if md.data_bus_16bit then f4 + s3 else f4 + 3 * s3)

/-- `FixupUnalignedWordAccessW32` (bus.cpp:23): returns the aligned offset
and the value shifted left by the byte offset, as a u32. -/
def FixupUnalignedWordAccessW32 (offset value : Nat) : Nat × Nat :=
  let byte_offset := offset &&& 3
  (offset - byte_offset, (value <<< (byte_offset * 8)) % 4294967296)

/-- The per-register write mask chosen by `Bus::DoWriteMemoryControl`
(bus.cpp:360): `COMDELAY::WRITE_MASK` for index 8 (`common_delay`),
`MEMDELAY::WRITE_MASK` otherwise.  The two mask constants live in `bus.h`
(not in this slice) and are taken as parameters. -/
def write_mask (mM mC : Nat) (index : Nat) : Nat :=
  if index = 8 then mC else mM

/-- `Bus::DoReadMemoryControl` (bus.cpp:348): reads the register selected
by `offset / 4`, then applies the unaligned-access fixup to the value. -/
def DoReadMemoryControl (regs : Fin 9 → Nat) (offset : Nat) : Nat :=
  let value := if h : offset / 4 < 9 then regs ⟨offset / 4, h⟩ else 0
  (FixupUnalignedWordAccessW32 offset value).2

/-- `Bus::DoWriteMemoryControl` (bus.cpp:355): applies the fixup, masks the
value with the register's write mask, and stores the merged word only when
it differs from the stored one (the store-and-recompute branch).  `mM` and
`mC` are `MEMDELAY::WRITE_MASK` and `COMDELAY::WRITE_MASK`. -/
def DoWriteMemoryControl (mM mC : Nat) (regs : Fin 9 → Nat)
    (offset value : Nat) : Fin 9 → Nat :=
  let f := FixupUnalignedWordAccessW32 offset value
  let index := f.1 / 4
  if h : index < 9 then
    let wm := write_mask mM mC index
    let new_value := (regs ⟨index, h⟩ &&& (4294967295 ^^^ wm)) ||| (f.2 &&& wm)
    if regs ⟨index, h⟩ ≠ new_value then
      fun j => if j = ⟨index, h⟩ then new_value else regs j
    else regs
  else regs

/-- Per-timer state of `Timers::CounterState` (timers.h).  `mode_bits` is
the bit-packed mode register word: bit 0 `sync_enable`, bits 1-2
`sync_mode`, bit 3 `reset_at_target`, bit 4 `irq_at_target`, bit 5
`irq_on_overflow`, bit 6 `irq_repeat`, bit 7 `irq_pulse_n`, bits 8-9
`clock_source`, bit 10 `interrupt_request_n`, bit 11 `reached_target`,
bit 12 `reached_overflow`. -/
structure CounterState where
  mode_bits : Nat
  counter : Nat
  target : Nat
  gate : Bool
  use_external_clock : Bool
  external_counting_enabled : Bool
  counting_enabled : Bool
  irq_done : Bool
deriving DecidableEq

def sync_enable (b : Nat) : Bool := b.testBit 0
def sync_mode (b : Nat) : Nat := (b >>> 1) &&& 3
def reset_at_target (b : Nat) : Bool := b.testBit 3
def irq_at_target (b : Nat) : Bool := b.testBit 4
def irq_on_overflow (b : Nat) : Bool := b.testBit 5
def irq_repeat (b : Nat) : Bool := b.testBit 6
def irq_pulse_n (b : Nat) : Bool := b.testBit 7
def clock_source (b : Nat) : Nat := (b >>> 8) &&& 3
def interrupt_request_n (b : Nat) : Bool := b.testBit 10
def reached_target (b : Nat) : Bool := b.testBit 11
def reached_overflow (b : Nat) : Bool := b.testBit 12

/-- `Timers::UpdateIRQ` (timers.cpp:258): returns early when the request
line is high or the one-shot latch blocks; otherwise sets `irq_done` and
delivers `InterruptRequest(TMR0 + index)` (the returned Bool). -/
def UpdateIRQ (cs : CounterState) : CounterState × Bool :=
  if interrupt_request_n cs.mode_bits || (! irq_repeat cs.mode_bits && cs.irq_done) then
    (cs, false)
  else
    ({ cs with irq_done := true }, true)

/-- Result of `Timers::AddTicks`: the new counter state, whether the
trigger logic raised an interrupt request this call, and whether
`UpdateIRQ` delivered an IRQ to the interrupt controller. -/
structure AddTicksResult where
  cs : CounterState
  interrupt_request : Bool
  irq_fired : Bool
deriving DecidableEq

/-- The interrupt-request block of `Timers::AddTicks` (timers.cpp:100-114):
in pulse mode (`!irq_pulse_n`) the request line goes low, `UpdateIRQ` runs,
and the line returns high; in toggle mode the line is toggled before
`UpdateIRQ`. -/
def addTicksIrqBlock (cs1 : CounterState) : CounterState × Bool :=
  if ! irq_pulse_n cs1.mode_bits then
    let csl : CounterState := { cs1 with mode_bits := set_bit 10 false cs1.mode_bits }
    let r := UpdateIRQ csl
    ({ r.1 with mode_bits := set_bit 10 true r.1.mode_bits }, r.2)
  else
    let csl : CounterState :=
      { cs1 with mode_bits := set_bit 10 (! interrupt_request_n cs1.mode_bits) cs1.mode_bits }
    UpdateIRQ csl

/-- The counter wrap at the end of `Timers::AddTicks` (timers.cpp:116-126):
modulo the target when `reset_at_target` (0 when the target is 0), else
modulo 0xFFFF. -/
def addTicksWrap (cs2 : CounterState) : CounterState :=
  if reset_at_target cs2.mode_bits then
    if 0 < cs2.target then { cs2 with counter := cs2.counter % cs2.target }
    else { cs2 with counter := 0 }
  else { cs2 with counter := cs2.counter % 65535 }

/-- The trigger and interrupt-request part of `Timers::AddTicks`
(timers.cpp:84-114), before the counter wrap: returns the state after the
u32 counter increment, the latch updates and the request-line block,
together with (interrupt_request, irq delivered). -/
def addTicksCore (cs : CounterState) (count : Nat) : CounterState × Bool × Bool :=
  let old_counter := cs.counter
  let c1 := (cs.counter + count) % 4294967296
  let hitT : Bool := decide (cs.target ≤ c1) && decide (old_counter < cs.target)
  let b1 := if hitT then set_bit 11 true cs.mode_bits else cs.mode_bits
  let hitO : Bool := decide (65535 ≤ c1)
  let b2 := if hitO then set_bit 12 true b1 else b1
  let ireq := hitT || hitO
  let cs1 : CounterState := { cs with counter := c1, mode_bits := b2 }
  let step := if ireq then addTicksIrqBlock cs1 else (cs1, false)
  (step.1, ireq, step.2)

/-- `Timers::AddTicks` (timers.cpp:82): add `count` to the u32 counter,
latch `reached_target` / `reached_overflow` and request an interrupt on
the target and overflow conditions, drive the (active-low) interrupt
request line, then wrap the counter. -/
def AddTicks (cs : CounterState) (count : Nat) : AddTicksResult :=
  let r := addTicksCore cs count
  ⟨addTicksWrap r.1, r.2.1, r.2.2⟩

/-- The whole timer unit: the three counter states of `Timers::m_states`
and `m_sysclk_div_8_carry`. -/
structure TimersState where
  st0 : CounterState
  st1 : CounterState
  st2 : CounterState
  sysclk_div_8_carry : Nat
deriving DecidableEq

def getTimer (ts : TimersState) (i : Nat) : CounterState :=
  if i = 0 then ts.st0 else if i = 1 then ts.st1 else ts.st2

def setTimer (ts : TimersState) (i : Nat) (cs : CounterState) : TimersState :=
  if i = 0 then { ts with st0 := cs }
  else if i = 1 then { ts with st1 := cs }
  else { ts with st2 := cs }

/-- `Timers::Execute` (timers.cpp:129): tick timers 0 and 1 raw when they
count on sysclk; timer 2 takes `(sysclk_ticks + carry) / 8` ticks and
keeps `(sysclk_ticks + carry) % 8` as the new carry when externally
clocked, else raw sysclk ticks when enabled.  Returns the new state and
the number of IRQs delivered to the interrupt controller. -/
def Execute (ts : TimersState) (sysclk_ticks : Nat) : TimersState × Nat :=
  let r0 :=
    if ! ts.st0.external_counting_enabled && ts.st0.counting_enabled then
      let r := AddTicks ts.st0 sysclk_ticks
      (r.cs, if r.irq_fired then 1 else 0)
    else (ts.st0, 0)
  let r1 :=
    if ! ts.st1.external_counting_enabled && ts.st1.counting_enabled then
      let r := AddTicks ts.st1 sysclk_ticks
      (r.cs, if r.irq_fired then 1 else 0)
    else (ts.st1, 0)
  let r2 :=
    if ts.st2.external_counting_enabled then
      let sysclk_div_8_ticks := (sysclk_ticks + ts.sysclk_div_8_carry) / 8
      let carry := (sysclk_ticks + ts.sysclk_div_8_carry) % 8
      let r := AddTicks ts.st2 sysclk_div_8_ticks
      (r.cs, carry, if r.irq_fired then 1 else 0)
    else if ts.st2.counting_enabled then
      let r := AddTicks ts.st2
        (if ts.st2.external_counting_enabled then sysclk_ticks / 8 else sysclk_ticks)
      (r.cs, ts.sysclk_div_8_carry, if r.irq_fired then 1 else 0)
    else (ts.st2, ts.sysclk_div_8_carry, 0)
  (⟨r0.1, r1.1, r2.1, r2.2.1⟩, r0.2 + r1.2 + r2.2.2)

/-- Iterate `Execute` with a fixed tick budget `n`, `k` times, summing the
delivered IRQ counts. -/
def ExecN (n : Nat) : TimersState → Nat → TimersState × Nat
  | ts, 0 => (ts, 0)
  | ts, k + 1 =>
      let r := Execute ts n
      let r2 := ExecN n r.1 k
      (r2.1, r.2 + r2.2)

/-- `Timers::UpdateCountingEnabled` (timers.cpp:230): recompute
`counting_enabled` from the sync mode and gate, and
`external_counting_enabled = use_external_clock && counting_enabled`.
Sync modes: 0 PauseOnGate, 1 ResetOnGate, 2 ResetAndRunOnGate,
3 FreeRunOnGate. -/
def UpdateCountingEnabled (cs : CounterState) : CounterState :=
  let ce :=
    if sync_enable cs.mode_bits then
      if sync_mode cs.mode_bits = 1 then true
      else if sync_mode cs.mode_bits = 2 then cs.gate
      else ! cs.gate
    else true
  { cs with counting_enabled := ce,
            external_counting_enabled := cs.use_external_clock && ce }

/-- `Timers::ReadRegister` (timers.cpp:149): timer index `(offset >> 4) & 3`,
port `offset & 0xF`.  Port 0x00 returns the counter; port 0x04 returns the
mode bits and clears `reached_overflow` and `reached_target`; port 0x08
returns the target; anything else returns all-ones.  (`m_system->
Synchronize()` is an external callback that does not change timer state
and is not modelled.)  Result: (value, new state). -/
def ReadRegister (ts : TimersState) (offset : Nat) : Nat × TimersState :=
  let timer_index := (offset >>> 4) &&& 3
  let port_offset := offset &&& 15
  let cs := getTimer ts timer_index
  if port_offset = 0 then (cs.counter, ts)
  else if port_offset = 4 then
    let bits := cs.mode_bits
    let cs2 := { cs with mode_bits := set_bit 11 false (set_bit 12 false cs.mode_bits) }
    (bits, setTimer ts timer_index cs2)
  else if port_offset = 8 then (cs.target, ts)
  else (4294967295, ts)

/-- `Timers::WriteRegister` (timers.cpp:183): port 0x00 sets the counter
(low 16 bits); port 0x04 stores `value & 0x1FFF` into the mode bits,
recomputes `use_external_clock` from the clock source (bit 1 of the field
for timer 2, bit 0 otherwise), zeroes the counter, clears `irq_done`,
forces `interrupt_request_n` high when `irq_pulse_n` is set, then runs
`UpdateCountingEnabled` and `UpdateIRQ`; port 0x08 sets the target (low
16 bits).  Result: (new state, whether `UpdateIRQ` delivered an IRQ). -/
def WriteRegister (ts : TimersState) (offset value : Nat) : TimersState × Bool :=
  let timer_index := (offset >>> 4) &&& 3
  let port_offset := offset &&& 15
  let cs := getTimer ts timer_index
  if port_offset = 0 then
    (setTimer ts timer_index { cs with counter := value &&& 65535 }, false)
  else if port_offset = 4 then
    let b := value &&& 8191
    let cs1 : CounterState := { cs with
      mode_bits := b,
      use_external_clock :=
        decide ((clock_source b) &&& (if timer_index = 2 then 2 else 1) ≠ 0),
      counter := 0,
      irq_done := false }
    let cs2 := if irq_pulse_n b then
        { cs1 with mode_bits := set_bit 10 true cs1.mode_bits }
      else cs1
    let cs3 := UpdateCountingEnabled cs2
    let r := UpdateIRQ cs3
    (setTimer ts timer_index r.1, r.2)
  else if port_offset = 8 then
    (setTimer ts timer_index { cs with target := value &&& 65535 }, false)
  else (ts, false)

/-- A timer in its `Timers::Reset` configuration except that counting is
disabled, so `Execute` leaves it untouched; used to isolate one timer in
the scenario states. -/
def timerOff : CounterState := ⟨0, 0, 0, false, false, false, false, false⟩

/-- A timer-0 state for the target-interrupt scenario: mode bits `bits`
(0x58 = `reset_at_target + irq_at_target + irq_repeat` before the first
trigger, 0xC58 after `reached_target` and `interrupt_request_n` latch),
counter 0, target `T`, sysclk counting. -/
def c3Timer (bits T : Nat) (done : Bool) : CounterState :=
  ⟨bits, 0, T, false, false, false, true, done⟩

/-- Timer unit with only timer 0 active, in the configuration of the
target-interrupt claim. -/
def c3State (bits T : Nat) (done : Bool) : TimersState :=
  ⟨c3Timer bits T done, timerOff, timerOff, 0⟩

/-- Timer unit for the sysclk/8 scenario: timer 2 externally clocked
(mode 0x210 = `irq_at_target + clock_source.1`), target 10, counter 0,
carry 0. -/
def c6State : TimersState :=
  ⟨timerOff, timerOff, ⟨528, 0, 10, false, true, true, true, false⟩, 0⟩

/-- Timer unit in its `Timers::Reset` state except that counting is
disabled everywhere. -/
def tsReset : TimersState := ⟨timerOff, timerOff, timerOff, 0⟩

/-- Timer unit whose timer 1 has `reached_target` latched (mode bits
0x800), counter 7, target 3; all timers idle. -/
def c5State : TimersState :=
  ⟨timerOff, ⟨2048, 7, 3, false, false, false, false, false⟩, timerOff, 0⟩

/-- A bus whose RAM is all zero. -/
def busZero : BusState := ⟨fun _ => 0⟩

/-! ## Theorems -/

/-- C1 (code bug): `Bus::WriteByte` and `Bus::WriteHalfWord` dispatch with
access type `Read`, not `Write`, so a byte or halfword write to RAM leaves
the cell unchanged (the dispatched access reads into a discarded
temporary) — whereas `Bus::WriteWord`, which dispatches with `Write`, does
store its value.  The claim says writes dispatch `Write` and store the
value; the code contradicts it. -/
theorem writeByte_halfword_dispatch_read :
    (WriteByte busZero 0 171).1.ram 0 = 0 ∧
    (WriteHalfWord busZero 0 48879).1.ram 0 = 0 ∧
    (WriteByte busZero 0 171).2 = true ∧
    (WriteHalfWord busZero 0 48879).2 = true ∧
    (WriteWord busZero 0 171).1.ram 0 = 171 :=
  ⟨rfl, rfl, rfl, rfl, rfl⟩

/-- C9: an invalid bus access costs exactly 1 tick, an invalid read forces
the value to 0xFFFFFFFF, an invalid write leaves the value and all bus
state unchanged, and the handler is a total function (never aborts). -/
theorem doInvalidAccess_spec (st : BusState) (sz : MemoryAccessSize)
    (a v : Nat) :
    DoInvalidAccess st .Read sz a v = (st, 4294967295, 1) ∧
    DoInvalidAccess st .Write sz a v = (st, v, 1) :=
  ⟨rfl, rfl⟩

/-- C8: `Bus::CalculateMemoryTiming` returns exactly the triple prescribed
by the spec's recipe (conditional com0/com2 additions, com3 minimum,
increment below 6, add `access_time + 2`, clamp with max, then the
byte/halfword/word composition with `first + 3·seq` on an 8-bit bus). -/
theorem calculateMemoryTiming_matches_spec (md : MEMDELAY) (cd : COMDELAY) :
    CalculateMemoryTiming md cd = CalculateMemoryTimingSpec md cd := by
  rcases md with ⟨at_, u0, u1, u2, u3, db⟩
  rcases cd with ⟨c0, c1, c2, c3⟩
  simp only [CalculateMemoryTiming, CalculateMemoryTimingSpec, Prod.mk.injEq]
  cases u0 <;> cases u2 <;> cases u3 <;> cases db <;>
    simp only [if_true, if_false, Bool.true_eq_false, Bool.false_eq_true] <;>
    refine ⟨?_, ?_, ?_⟩ <;> split_ifs <;> omega

theorem updateIRQ_mode_bits (cs : CounterState) :
    (UpdateIRQ cs).1.mode_bits = cs.mode_bits := by
  unfold UpdateIRQ
  split <;> rfl

theorem updateIRQ_counter (cs : CounterState) :
    (UpdateIRQ cs).1.counter = cs.counter := by
  unfold UpdateIRQ
  split <;> rfl

theorem updateIRQ_target (cs : CounterState) :
    (UpdateIRQ cs).1.target = cs.target := by
  unfold UpdateIRQ
  split <;> rfl

theorem irqBlock_counter (cs : CounterState) :
    (addTicksIrqBlock cs).1.counter = cs.counter := by
  unfold addTicksIrqBlock
  split <;> simp [updateIRQ_counter]

theorem irqBlock_target (cs : CounterState) :
    (addTicksIrqBlock cs).1.target = cs.target := by
  unfold addTicksIrqBlock
  split <;> simp [updateIRQ_target]

theorem irqBlock_testBit (cs : CounterState) (j : Nat) (hj : j ≠ 10) :
    (addTicksIrqBlock cs).1.mode_bits.testBit j = cs.mode_bits.testBit j := by
  unfold addTicksIrqBlock
  split <;> simp [updateIRQ_mode_bits, testBit_set_bit, hj]

theorem addTicksCore_counter (cs : CounterState) (count : Nat) :
    (addTicksCore cs count).1.counter = (cs.counter + count) % 4294967296 := by
  simp only [addTicksCore]
  split
  · simp [irqBlock_counter]
  · rfl

theorem addTicksCore_target (cs : CounterState) (count : Nat) :
    (addTicksCore cs count).1.target = cs.target := by
  simp only [addTicksCore]
  split
  · simp [irqBlock_target]
  · rfl

theorem addTicksCore_testBit (cs : CounterState) (count : Nat) (j : Nat)
    (hj10 : j ≠ 10) (hj11 : j ≠ 11) (hj12 : j ≠ 12) :
    (addTicksCore cs count).1.mode_bits.testBit j = cs.mode_bits.testBit j := by
  simp only [addTicksCore]
  split
  · rw [irqBlock_testBit _ _ hj10]
    split <;> split <;> simp [testBit_set_bit, hj11, hj12]
  · split <;> split <;> simp [testBit_set_bit, hj11, hj12]

theorem addTicksWrap_mode_bits (cs : CounterState) :
    (addTicksWrap cs).mode_bits = cs.mode_bits := by
  unfold addTicksWrap
  split_ifs <;> rfl

/-- C2: after `Timers::AddTicks(t, n)` (no u32 overflow of the raw sum),
the counter is `(old_counter + n) % target` when `reset_at_target` is set
and the target is positive, `0` when `reset_at_target` is set and the
target is zero, and `(old_counter + n) % 0xFFFF` otherwise — modulo
65535, not masking to 65536. -/
theorem addTicks_counter_wrap (cs : CounterState) (n : Nat)
    (h : cs.counter + n < 4294967296) :
    ((AddTicks cs n).cs).counter =
      if reset_at_target cs.mode_bits then
        if 0 < cs.target then (cs.counter + n) % cs.target else 0
      else (cs.counter + n) % 65535 := by
  have hb := addTicksCore_testBit cs n 3 (by decide) (by decide) (by decide)
  have hc := addTicksCore_counter cs n
  have ht := addTicksCore_target cs n
  have hcc : (cs.counter + n) % 4294967296 = cs.counter + n := Nat.mod_eq_of_lt h
  simp only [AddTicks, addTicksWrap, reset_at_target, hb, hc, ht, hcc]
  split_ifs <;> simp_all

/-- Witness for `addTicks_counter_wrap`: timer with `reset_at_target`
(mode 0x08), counter 5, target 7, ticked by 10 — counter becomes
`15 % 7 = 1`. -/
theorem addTicks_counter_wrap_witness :
    (5 : Nat) + 10 < 4294967296 ∧
    ((AddTicks ⟨8, 5, 7, false, false, false, true, false⟩ 10).cs).counter =
      if reset_at_target 8 then
        if 0 < 7 then (5 + 10) % 7 else 0
      else (5 + 10) % 65535 :=
  ⟨by decide, addTicks_counter_wrap ⟨8, 5, 7, false, false, false, true, false⟩ 10 (by decide)⟩

theorem addTicksCore_target_zero (cs : CounterState) (n : Nat)
    (h : cs.target = 0) :
    (addTicksCore cs n).1.mode_bits.testBit 11 = cs.mode_bits.testBit 11 ∧
    (addTicksCore cs n).2.1 = decide (65535 ≤ (cs.counter + n) % 4294967296) := by
  have h1 : decide (cs.counter < cs.target) = false := by
    simp [h]
  simp only [addTicksCore, h1, Bool.and_false, Bool.false_or, if_false,
    Bool.false_eq_true]
  constructor
  · split
    · rw [irqBlock_testBit _ _ (by decide)]
      simp [testBit_set_bit]
    · simp [testBit_set_bit]
  · trivial

/-- C10: when a timer's target is 0, `AddTicks` can never latch
`reached_target` (its trigger needs `old_counter < target`, unsatisfiable
over unsigned values), and an interrupt request arises exactly when the
incremented counter reaches the overflow condition `counter >= 0xFFFF`. -/
theorem addTicks_target_zero (cs : CounterState) (n : Nat)
    (h : cs.target = 0) :
    reached_target ((AddTicks cs n).cs).mode_bits = reached_target cs.mode_bits ∧
    (AddTicks cs n).interrupt_request =
      decide (65535 ≤ (cs.counter + n) % 4294967296) := by
  have hc := addTicksCore_target_zero cs n h
  constructor
  · simp only [AddTicks, reached_target, addTicksWrap_mode_bits]
    exact hc.1
  · simp only [AddTicks]
    exact hc.2

/-- Witness for `addTicks_target_zero`: a target-0 timer ticked by 10 from
counter 5 latches no target condition and raises no request. -/
theorem addTicks_target_zero_witness :
    (⟨0, 5, 0, false, false, false, true, false⟩ : CounterState).target = 0 ∧
    reached_target ((AddTicks ⟨0, 5, 0, false, false, false, true, false⟩ 10).cs).mode_bits =
      reached_target (⟨0, 5, 0, false, false, false, true, false⟩ : CounterState).mode_bits :=
  ⟨rfl, (addTicks_target_zero ⟨0, 5, 0, false, false, false, true, false⟩ 10 rfl).1⟩

theorem updateIRQ_uec (cs : CounterState) :
    (UpdateIRQ cs).1.use_external_clock = cs.use_external_clock := by
  unfold UpdateIRQ
  split <;> rfl

theorem updateIRQ_fired (cs : CounterState) :
    (UpdateIRQ cs).2 =
      (! interrupt_request_n cs.mode_bits &&
        (irq_repeat cs.mode_bits || ! cs.irq_done)) := by
  unfold UpdateIRQ
  rcases h1 : interrupt_request_n cs.mode_bits <;>
    rcases h2 : irq_repeat cs.mode_bits <;>
    rcases h3 : cs.irq_done <;> simp [h1, h2, h3]

theorem updateIRQ_done (cs : CounterState) :
    (UpdateIRQ cs).1.irq_done = (cs.irq_done || (UpdateIRQ cs).2) := by
  unfold UpdateIRQ
  rcases h1 : interrupt_request_n cs.mode_bits <;>
    rcases h2 : irq_repeat cs.mode_bits <;>
    rcases h3 : cs.irq_done <;> simp [h1, h2, h3]

theorem uce_mode_bits (cs : CounterState) :
    (UpdateCountingEnabled cs).mode_bits = cs.mode_bits := rfl

theorem uce_counter (cs : CounterState) :
    (UpdateCountingEnabled cs).counter = cs.counter := rfl

theorem uce_target (cs : CounterState) :
    (UpdateCountingEnabled cs).target = cs.target := rfl

theorem uce_uec (cs : CounterState) :
    (UpdateCountingEnabled cs).use_external_clock = cs.use_external_clock := rfl

theorem uce_done (cs : CounterState) :
    (UpdateCountingEnabled cs).irq_done = cs.irq_done := rfl

theorem getTimer_setTimer (ts : TimersState) (i : Nat) (cs : CounterState)
    (h : i < 3) :
    getTimer (setTimer ts i cs) i = cs := by
  unfold getTimer setTimer
  interval_cases i <;> simp

/-- C4 counterexample: writing mode value 0 (both `irq_pulse_n` and the
stored `interrupt_request_n` bit clear) leaves `irq_done = true` after the
write, because the write's trailing `UpdateIRQ` fires immediately — the
claim's "clears irq_done" does not hold of the final state for this
input. -/
theorem writeRegister_mode_zero_sets_irq_done :
    (WriteRegister tsReset 4 0).1.st0.irq_done = true ∧
    (WriteRegister tsReset 4 0).2 = true := by
  constructor <;> rfl

/-- C4 (amended): writing the mode port (offset `0x10·t + 0x04`) stores
`v & 0x1FFF` into the mode bits (with `interrupt_request_n` forced high
when the stored `irq_pulse_n` is set), recomputes `use_external_clock` as
`(clock_source & (t == 2 ? 2 : 1)) != 0`, zeroes the counter and clears
`irq_done`; but when the stored value has both `irq_pulse_n` and
`interrupt_request_n` clear, the trailing `UpdateIRQ` immediately fires
the timer IRQ and sets `irq_done` back to true. -/
theorem writeRegister_mode_effects (ts : TimersState) (t v : Nat)
    (ht : t < 3) :
    (getTimer (WriteRegister ts (16 * t + 4) v).1 t).mode_bits =
      (if irq_pulse_n (v &&& 8191) then set_bit 10 true (v &&& 8191)
       else v &&& 8191) ∧
    (getTimer (WriteRegister ts (16 * t + 4) v).1 t).counter = 0 ∧
    (getTimer (WriteRegister ts (16 * t + 4) v).1 t).use_external_clock =
      decide ((clock_source (v &&& 8191)) &&& (if t = 2 then 2 else 1) ≠ 0) ∧
    (getTimer (WriteRegister ts (16 * t + 4) v).1 t).target =
      (getTimer ts t).target ∧
    (getTimer (WriteRegister ts (16 * t + 4) v).1 t).irq_done =
      (! irq_pulse_n (v &&& 8191) && ! interrupt_request_n (v &&& 8191)) ∧
    (WriteRegister ts (16 * t + 4) v).2 =
      (! irq_pulse_n (v &&& 8191) && ! interrupt_request_n (v &&& 8191)) := by
  have hidx : (((16 * t + 4 : Nat)) >>> 4) &&& 3 = t := by
    interval_cases t <;> decide
  have hport : ((16 * t + 4 : Nat)) &&& 15 = 4 := by
    interval_cases t <;> decide
  simp only [WriteRegister, hidx, hport, if_true, ite_true]
  by_cases hp : irq_pulse_n (v &&& 8191)
  · simp [hp, getTimer_setTimer ts t _ ht, updateIRQ_mode_bits,
      updateIRQ_counter, updateIRQ_target, updateIRQ_uec, updateIRQ_fired,
      updateIRQ_done, uce_mode_bits, uce_counter, uce_target, uce_uec,
      uce_done, interrupt_request_n, testBit_set_bit]
  · simp [hp, getTimer_setTimer ts t _ ht, updateIRQ_mode_bits,
      updateIRQ_counter, updateIRQ_target, updateIRQ_uec, updateIRQ_fired,
      updateIRQ_done, uce_mode_bits, uce_counter, uce_target, uce_uec,
      uce_done, interrupt_request_n]

/-- Witness for `writeRegister_mode_effects` at timer 0, value 0x1FFF. -/
theorem writeRegister_mode_effects_witness :
    (0 : Nat) < 3 ∧
    (getTimer (WriteRegister tsReset (16 * 0 + 4) 8191).1 0).counter = 0 :=
  ⟨by decide, (writeRegister_mode_effects tsReset 0 8191 (by decide)).2.1⟩

/-- C5 counterexample: under the claim's per-timer stride of 0x08, timer
1's mode port would be offset 0x0C; reading there returns 0xFFFFFFFF (the
unknown-register path), not timer 1's mode bits (0x800 here), and leaves
timer 1's `reached_target` latched. The actual stride is 0x10. -/
theorem readRegister_stride8_is_wrong :
    (ReadRegister c5State (8 * 1 + 4)).1 = 4294967295 ∧
    (ReadRegister c5State (8 * 1 + 4)).1 ≠ c5State.st1.mode_bits ∧
    reached_target (ReadRegister c5State (8 * 1 + 4)).2.st1.mode_bits = true := by
  refine ⟨rfl, by decide, rfl⟩

/-- C5 (amended): reading the mode port (per-timer stride 0x10, port
offset 0x04) returns the mode bits as they were before the read and,
atomically with it, clears `reached_target` and `reached_overflow`,
leaving the counter, target, `irq_done`, every other mode bit, and the
other timers unchanged. -/
theorem readRegister_mode_effects (ts : TimersState) (t : Nat) (ht : t < 3) :
    (ReadRegister ts (16 * t + 4)).1 = (getTimer ts t).mode_bits ∧
    reached_target (getTimer (ReadRegister ts (16 * t + 4)).2 t).mode_bits = false ∧
    reached_overflow (getTimer (ReadRegister ts (16 * t + 4)).2 t).mode_bits = false ∧
    (∀ j, j ≠ 11 → j ≠ 12 →
      (getTimer (ReadRegister ts (16 * t + 4)).2 t).mode_bits.testBit j =
        (getTimer ts t).mode_bits.testBit j) ∧
    (getTimer (ReadRegister ts (16 * t + 4)).2 t).counter =
      (getTimer ts t).counter ∧
    (getTimer (ReadRegister ts (16 * t + 4)).2 t).target =
      (getTimer ts t).target ∧
    (getTimer (ReadRegister ts (16 * t + 4)).2 t).irq_done =
      (getTimer ts t).irq_done ∧
    (∀ j, j < 3 → j ≠ t → getTimer (ReadRegister ts (16 * t + 4)).2 j = getTimer ts j) := by
  have hidx : (((16 * t + 4 : Nat)) >>> 4) &&& 3 = t := by
    interval_cases t <;> decide
  have hport : ((16 * t + 4 : Nat)) &&& 15 = 4 := by
    interval_cases t <;> decide
  simp only [ReadRegister, hidx, hport, if_true, ite_true]
  refine ⟨rfl, ?_, ?_, ?_, ?_, ?_, ?_, ?_⟩
  · simp [reached_target, getTimer_setTimer ts t _ ht, testBit_set_bit]
  · simp [reached_overflow, getTimer_setTimer ts t _ ht, testBit_set_bit]
  · intro j hj11 hj12
    simp [getTimer_setTimer ts t _ ht, testBit_set_bit, hj11, hj12]
  · simp [getTimer_setTimer ts t _ ht]
  · simp [getTimer_setTimer ts t _ ht]
  · simp [getTimer_setTimer ts t _ ht]
  · intro j hj hjt
    unfold getTimer setTimer
    interval_cases t <;> interval_cases j <;> simp_all

/-- Witness for `readRegister_mode_effects` at timer 1 of `c5State`. -/
theorem readRegister_mode_effects_witness :
    (1 : Nat) < 3 ∧
    (ReadRegister c5State (16 * 1 + 4)).1 = (getTimer c5State 1).mode_bits :=
  ⟨by decide, (readRegister_mode_effects c5State 1 (by decide)).1⟩

/-- C6: with timer 2 externally clocked (sysclk/8), `Execute(n)` feeds
timer 2 exactly `(n + carry) / 8` ticks and keeps `(n + carry) % 8` as
the new carry; in the concrete scenario (target 10, counter 0, carry 0),
`Execute(79)` leaves counter 9 and carry 7, and the following `Execute(1)`
leaves counter 10 and carry 0 and delivers the timer-2 IRQ. -/
theorem execute_timer2_div8 :
    (∀ (ts : TimersState) (n : Nat),
      ts.st2.external_counting_enabled = true →
        (Execute ts n).1.sysclk_div_8_carry = (n + ts.sysclk_div_8_carry) % 8 ∧
        (Execute ts n).1.st2 =
          (AddTicks ts.st2 ((n + ts.sysclk_div_8_carry) / 8)).cs) ∧
    (Execute c6State 79).1.st2.counter = 9 ∧
    (Execute c6State 79).1.sysclk_div_8_carry = 7 ∧
    (Execute (Execute c6State 79).1 1).1.st2.counter = 10 ∧
    (Execute (Execute c6State 79).1 1).1.sysclk_div_8_carry = 0 ∧
    (Execute (Execute c6State 79).1 1).2 = 1 := by
  refine ⟨?_, by decide, by decide, by decide, by decide, by decide⟩
  intro ts n h
  constructor <;> simp only [Execute, h, if_true, ite_true]

/-- Witness for the universally quantified part of `execute_timer2_div8`,
applied at `c6State` and 79 ticks. -/
theorem execute_timer2_div8_witness :
    c6State.st2.external_counting_enabled = true ∧
    (Execute c6State 79).1.sysclk_div_8_carry = (79 + c6State.sysclk_div_8_carry) % 8 :=
  ⟨rfl, (execute_timer2_div8.1 c6State 79 rfl).1⟩

theorem addTicks_c3_first (T : Nat) (h1 : 0 < T) (h2 : T < 65535) :
    AddTicks ⟨88, 0, T, false, false, false, true, false⟩ T =
      ⟨⟨3160, 0, T, false, false, false, true, true⟩, true, true⟩ := by
  have e1 : (0 + T) % 4294967296 = T := by omega
  have e2 : decide ((T : Nat) ≤ T) = true := by simp
  have e3 : decide ((0 : Nat) < T) = true := by simpa using h1
  have e4 : decide ((65535 : Nat) ≤ T) = false := by
    simp only [decide_eq_false_iff_not]
    omega
  have e5 : T % T = 0 := Nat.mod_self T
  have s1 : set_bit 11 true 88 = 2136 := by decide
  have s2 : set_bit 10 false 2136 = 2136 := by decide
  have s3 : set_bit 10 true 2136 = 3160 := by decide
  have p1 : irq_pulse_n 2136 = false := by decide
  have p2 : interrupt_request_n 2136 = false := by decide
  have p3 : irq_repeat 2136 = true := by decide
  have r1 : reset_at_target 3160 = true := by decide
  simp only [AddTicks, addTicksCore, addTicksIrqBlock, addTicksWrap,
    UpdateIRQ, e1, e2, e3, e4, e5, s1, s2, s3, p1, p2, p3, r1,
    Bool.and_true, Bool.true_and, Bool.and_false, Bool.false_and,
    Bool.or_false, Bool.false_or, Bool.not_false, Bool.not_true,
    Bool.true_or, Bool.or_true, if_true, if_false, ite_true, ite_false,
    Bool.false_eq_true]
  simp [h1]

theorem addTicks_c3_again (T : Nat) (h1 : 0 < T) (h2 : T < 65535) :
    AddTicks ⟨3160, 0, T, false, false, false, true, true⟩ T =
      ⟨⟨3160, 0, T, false, false, false, true, true⟩, true, true⟩ := by
  have e1 : (0 + T) % 4294967296 = T := by omega
  have e2 : decide ((T : Nat) ≤ T) = true := by simp
  have e3 : decide ((0 : Nat) < T) = true := by simpa using h1
  have e4 : decide ((65535 : Nat) ≤ T) = false := by
    simp only [decide_eq_false_iff_not]
    omega
  have e5 : T % T = 0 := Nat.mod_self T
  have s1 : set_bit 11 true 3160 = 3160 := by decide
  have s2 : set_bit 10 false 3160 = 2136 := by decide
  have s3 : set_bit 10 true 2136 = 3160 := by decide
  have p1 : irq_pulse_n 3160 = false := by decide
  have p2 : interrupt_request_n 2136 = false := by decide
  have p3 : irq_repeat 2136 = true := by decide
  have r1 : reset_at_target 3160 = true := by decide
  simp only [AddTicks, addTicksCore, addTicksIrqBlock, addTicksWrap,
    UpdateIRQ, e1, e2, e3, e4, e5, s1, s2, s3, p1, p2, p3, r1,
    Bool.and_true, Bool.true_and, Bool.and_false, Bool.false_and,
    Bool.or_false, Bool.false_or, Bool.not_false, Bool.not_true,
    Bool.true_or, Bool.or_true, if_true, if_false, ite_true, ite_false,
    Bool.false_eq_true]
  simp [h1]

theorem c3_execute_first (T : Nat) (h1 : 0 < T) (h2 : T < 65535) :
    Execute (c3State 88 T false) T = (c3State 3160 T true, 1) := by
  simp only [Execute, c3State, c3Timer, timerOff,
    addTicks_c3_first T h1 h2, Bool.not_false, Bool.not_true,
    Bool.true_and, Bool.and_false, Bool.false_and, if_true, if_false,
    ite_true, ite_false, Bool.false_eq_true]

theorem c3_execute_again (T : Nat) (h1 : 0 < T) (h2 : T < 65535) :
    Execute (c3State 3160 T true) T = (c3State 3160 T true, 1) := by
  simp only [Execute, c3State, c3Timer, timerOff,
    addTicks_c3_again T h1 h2, Bool.not_false, Bool.not_true,
    Bool.true_and, Bool.and_false, Bool.false_and, if_true, if_false,
    ite_true, ite_false, Bool.false_eq_true]

theorem c3_repeat_fixpoint (T : Nat) (h1 : 0 < T) (h2 : T < 65535) (k : Nat) :
    ExecN T (c3State 3160 T true) k = (c3State 3160 T true, k) := by
  induction k with
  | zero => rfl
  | succ n ih =>
      simp only [ExecN, c3_execute_again T h1 h2, ih, Prod.mk.injEq]
      exact ⟨trivial, by omega⟩

/-- C3 counterexample: in the claim's configuration (mode 0x58 =
`reset_at_target + irq_at_target + irq_repeat`, target T = 100, counter
0), a single call `Execute(k·T)` with k = 2 delivers exactly one
interrupt-request edge, not k = 2: the trigger condition
`counter >= target && old < target` fires once per call no matter how
many multiples of the target the budget covers. -/
theorem execute_two_targets_one_edge :
    (Execute (c3State 88 100 false) (2 * 100)).2 = 1 ∧
    (Execute (c3State 88 100 false) (2 * 100)).2 ≠ 2 := by
  constructor <;> decide

theorem c3_execute_first_ovf :
    Execute (c3State 88 65535 false) 65535 = (c3State 7256 65535 true, 1) := by
  decide

theorem c3_execute_again_ovf :
    Execute (c3State 7256 65535 true) 65535 = (c3State 7256 65535 true, 1) := by
  decide

theorem c3_repeat_fixpoint_ovf (k : Nat) :
    ExecN 65535 (c3State 7256 65535 true) k = (c3State 7256 65535 true, k) := by
  induction k with
  | zero => rfl
  | succ n ih =>
      simp only [ExecN, c3_execute_again_ovf, ih, Prod.mk.injEq]
      exact ⟨trivial, by omega⟩

/-- C3 (amended): with `irq_at_target`, `reset_at_target`, `irq_repeat`
set, any reachable target `T` (`0 < T ≤ 0xFFFF`, the target register
being 16 bits), sync disabled and the timer counting on sysclk, `k`
successive calls of `Execute(T)` deliver exactly `k` interrupt-request
edges.  (At `T = 0xFFFF` each call also latches `reached_overflow`, but
still requests and delivers exactly one IRQ.) -/
theorem execute_T_k_times_k_edges (T k : Nat) (h1 : 0 < T)
    (h2 : T ≤ 65535) :
    (ExecN T (c3State 88 T false) k).2 = k := by
  rcases Nat.lt_or_ge T 65535 with h | h
  · cases k with
    | zero => rfl
    | succ n =>
        simp only [ExecN, c3_execute_first T h1 h,
          c3_repeat_fixpoint T h1 h n]
        omega
  · have hT : T = 65535 := by omega
    subst hT
    cases k with
    | zero => rfl
    | succ n =>
        simp only [ExecN, c3_execute_first_ovf, c3_repeat_fixpoint_ovf n]
        omega

/-- Witness for `execute_T_k_times_k_edges` at the boundary target
T = 0xFFFF, k = 3. -/
theorem execute_T_k_times_k_edges_witness :
    (0 : Nat) < 65535 ∧ (65535 : Nat) ≤ 65535 ∧
    (ExecN 65535 (c3State 88 65535 false) 3).2 = 3 :=
  ⟨by decide, by decide,
    execute_T_k_times_k_edges 65535 3 (by decide) (by decide)⟩

/-- C7: an aligned MEMCTRL word write followed by an aligned word read of
the same register returns `(old & ~write_mask) | (value & write_mask)`,
with `COMDELAY::WRITE_MASK` used for index 8 (`common_delay`) and
`MEMDELAY::WRITE_MASK` for the other eight registers. -/
theorem memctrl_write_then_read (mM mC : Nat) (regs : Fin 9 → Nat)
    (i : Fin 9) (v : Nat) (hM : mM < 4294967296) (hC : mC < 4294967296)
    (hv : v < 4294967296) :
    DoReadMemoryControl (DoWriteMemoryControl mM mC regs (4 * i.val) v)
        (4 * i.val) =
      (regs i &&& (4294967295 ^^^ write_mask mM mC i.val)) |||
        (v &&& write_mask mM mC i.val) := by
  have h32 : (4294967296 : Nat) = 2 ^ 32 := by norm_num
  have hwm : write_mask mM mC i.val < 4294967296 := by
    unfold write_mask
    split <;> assumption
  have hxm : 4294967295 ^^^ write_mask mM mC i.val < 4294967296 := by
    rw [h32] at hwm ⊢
    exact Nat.xor_lt_two_pow (by norm_num) hwm
  have hnv : (regs i &&& (4294967295 ^^^ write_mask mM mC i.val)) |||
      (v &&& write_mask mM mC i.val) < 4294967296 := by
    rw [h32] at hxm hwm ⊢
    exact Nat.or_lt_two_pow (lt_of_le_of_lt Nat.and_le_right hxm)
      (lt_of_le_of_lt Nat.and_le_right hwm)
  have hb0 : (4 * i.val) &&& 3 = 0 :=
    calc (4 * i.val) &&& 3 = (4 * i.val) % 4 :=
          Nat.and_pow_two_sub_one_eq_mod (4 * i.val) 2
      _ = 0 := by omega
  have hdix : 4 * i.val / 4 = i.val := by omega
  simp only [DoWriteMemoryControl, FixupUnalignedWordAccessW32, hb0,
    Nat.sub_zero, Nat.zero_mul, Nat.shiftLeft_zero, hdix,
    Nat.mod_eq_of_lt hv, Fin.eta]
  rw [dif_pos i.isLt]
  split_ifs with hchg
  · simp only [DoReadMemoryControl, FixupUnalignedWordAccessW32, hb0,
      Nat.sub_zero, Nat.zero_mul, Nat.shiftLeft_zero, hdix]
    rw [dif_pos i.isLt]
    simp only [Fin.eta, if_pos rfl]
    exact Nat.mod_eq_of_lt hnv
  · simp only [DoReadMemoryControl, FixupUnalignedWordAccessW32, hb0,
      Nat.sub_zero, Nat.zero_mul, Nat.shiftLeft_zero, hdix]
    rw [dif_pos i.isLt]
    simp only [Fin.eta]
    push_neg at hchg
    conv_lhs => rw [hchg]
    exact Nat.mod_eq_of_lt hnv

/-- Witness for `memctrl_write_then_read`: masks 0x00FF00FF / 0x0F0F0F0F,
register file all 0xDEADBEEF, register 2, value 0x12345678. -/
theorem memctrl_write_then_read_witness :
    (16711935 : Nat) < 4294967296 ∧ (252645135 : Nat) < 4294967296 ∧
    (305419896 : Nat) < 4294967296 ∧
    DoReadMemoryControl
        (DoWriteMemoryControl 16711935 252645135 (fun _ => 3735928559)
          (4 * (2 : Fin 9).val) 305419896)
        (4 * (2 : Fin 9).val) =
      ((fun _ : Fin 9 => (3735928559 : Nat)) 2 &&&
          (4294967295 ^^^ write_mask 16711935 252645135 (2 : Fin 9).val)) |||
        (305419896 &&& write_mask 16711935 252645135 (2 : Fin 9).val) :=
  ⟨by decide, by decide, by decide,
    memctrl_write_then_read 16711935 252645135 (fun _ => 3735928559) 2
      305419896 (by decide) (by decide) (by decide)⟩
